import Mathlib

/-! gpu-admission: the v2 scheduler-extender routes

A shallow embedding of `pkg/route/routesv2.go`: the three POST handlers
`PredicateRouteV2` (filter), `PrioritizeRouteV2` (priorities) and `BindRouteV2`
(bind), together with the part of `net/http` and `encoding/json` they touch.

Conventions of the embedding.

* A Go pointer is an `Option`: `nil` is `none`.  Reading a field through a nil
  pointer, or ranging over `*p` for a nil `p`, is a run-time panic.
* A Go slice is a `List`; a nil slice and an empty slice are both `[]`
  (the handlers only range over slices and take their length).
* A Go map with string keys is an association list; a nil map is `none` and the
  empty map literal is `some []`.
* `json.NewDecoder(..).Decode` and `json.Marshal` are library functions.  They
  are parameters of the handlers (structure `Json`), each returning either a
  value or the text of the error.
* A handler is run on a response writer and a request and yields an `Outcome`:
  the state of the response writer when the handler stops and, if it stopped by
  panicking, the panic value.
* The klog calls only emit log lines and are not part of the outcome.  What is
  kept of a log call is the evaluation of its arguments, which happens before
  the call whatever the verbosity and which panics on a nil pointer.
-/

namespace GpuAdmission

/-! ## Data model (`k8s.io/kube-scheduler/extender/v1`, `k8s.io/api/core/v1`) -/

/-- The part of `v1.Pod` kept by the embedding: the two metadata fields the
handlers read, and the resource requests of the pod (resource name, quantity),
which they never read. -/
structure Pod where
  Namespace : String
  Name : String
  Requests : List (String × Nat)
  deriving DecidableEq, Repr

/-- One GPU device of a node, as the specification describes node state: memory
and compute-share capacity and usage. -/
structure Device where
  memoryCapacity : Nat
  memoryUsed : Nat
  computeCapacity : Nat
  computeUsed : Nat
  deriving DecidableEq, Repr

/-- The part of `v1.Node` kept by the embedding: its name and, standing for the
rest of the object, the state of its GPU devices.  The handlers never read
either. -/
structure Node where
  Name : String
  Devices : List Device
  deriving DecidableEq, Repr

/-- `v1.NodeList`: the items of the list. -/
abbrev NodeList := List Node

/-- `extender.ExtenderArgs`.  The library declares the three fields as
`Pod *v1.Pod`, `Nodes *v1.NodeList` and `NodeNames *[]string`: every one of
them is a pointer and is nil when the JSON body omits the key or gives null. -/
structure ExtenderArgs where
  Pod : Option Pod
  Nodes : Option NodeList
  NodeNames : Option (List String)
  deriving DecidableEq, Repr

/-- `extender.FailedNodesMap`, a `map[string]string`; `none` is the nil map. -/
abbrev FailedNodesMap := Option (List (String × String))

/-- `extender.ExtenderFilterResult`, with the fields the handler sets. -/
structure ExtenderFilterResult where
  Nodes : Option NodeList
  NodeNames : Option (List String)
  FailedNodes : FailedNodesMap
  Error : String
  deriving DecidableEq, Repr

/-- `extender.HostPriority`; `Score` is an `int64`. -/
structure HostPriority where
  Host : String
  Score : Int
  deriving DecidableEq, Repr

/-- `extender.HostPriorityList`. -/
abbrev HostPriorityList := List HostPriority

/-- `extender.ExtenderBindingArgs`. -/
structure ExtenderBindingArgs where
  PodName : String
  PodNamespace : String
  PodUID : String
  Node : String
  deriving DecidableEq, Repr

/-- `extender.ExtenderBindingResult`. -/
structure ExtenderBindingResult where
  Error : String
  deriving DecidableEq, Repr

/-! ## `net/http` -/

/-- `http.StatusOK`. -/
def StatusOK : Nat := 200

/-- `http.StatusInternalServerError`. -/
def StatusInternalServerError : Nat := 500

/-- The request as the handlers see it: `r.Body`, nil when the request carries
no body. -/
structure Request where
  Body : Option String
  deriving DecidableEq, Repr

/-- The state of an `http.ResponseWriter`: the header map, the status line once
it is written, and the bytes of the body written so far. -/
structure ResponseWriter where
  header : List (String × String)
  status : Option Nat
  body : String
  deriving DecidableEq, Repr

namespace ResponseWriter

/-- A response writer on which nothing has been written. -/
def fresh : ResponseWriter := ⟨[], none, ""⟩

/-- `w.Header().Set(key, value)`: replaces the values of `key`. -/
def setHeader (w : ResponseWriter) (key value : String) : ResponseWriter :=
  { w with header := (key, value) :: w.header.filter (fun kv => kv.1 != key) }

/-- `w.WriteHeader(code)`: the first call fixes the status, later ones are
ignored. -/
def WriteHeader (w : ResponseWriter) (code : Nat) : ResponseWriter :=
  match w.status with
  | none => { w with status := some code }
  | some _ => w

/-- `w.Write(data)`: writes the status line as 200 when none was written, then
appends to the body. -/
def Write (w : ResponseWriter) (data : String) : ResponseWriter :=
  let w1 := w.WriteHeader StatusOK
  { w1 with body := w1.body ++ data }

end ResponseWriter

/-- The value a handler panics with: an `error` (by its message), or the
run-time error of a nil pointer dereference. -/
inductive PanicValue where
  | err (msg : String)
  | nilPointer
  deriving DecidableEq, Repr

/-- How a handler stops: the response writer at that point and, when it
panicked, the panic value. -/
structure Outcome where
  w : ResponseWriter
  panic : Option PanicValue
  deriving DecidableEq, Repr

/-! ## `encoding/json` -/

deriving instance DecidableEq for Except

/-- The library functions of `encoding/json` the handlers call, one per Go type
they are used at.  Each returns the value or the error message. -/
structure Json where
  decodeExtenderArgs : String → Except String ExtenderArgs
  decodeBindingArgs : String → Except String ExtenderBindingArgs
  marshalFilterResult : ExtenderFilterResult → Except String String
  marshalPriorityList : HostPriorityList → Except String String
  marshalBindingResult : ExtenderBindingResult → Except String String

/-! ## The handlers -/

/-- The text `fmt.Sprintf` builds from the format of the marshal-failure branch
and the error message. -/
def errMsg (e : String) : String := "\x7b'error':'" ++ e ++ "'\x7d"

/-- Lines 54 to 57 of `PredicateRouteV2`: `nodesName` starts as the nil slice
and every element of the input is appended in turn. -/
def copyNodeNames (names : List String) : List String :=
  names.foldl (fun nodesName v => nodesName ++ [v]) []

/-- Lines 36 to 64 of `PredicateRouteV2`: the result the filter handler builds
from the outcome of decoding, or the panic it stops with.  The log statement of
line 53 reads `extenderArgs.Pod.Namespace` and `extenderArgs.Pod.Name`. -/
def filterResult (decoded : Except String ExtenderArgs) :
    Except PanicValue ExtenderFilterResult :=
  match decoded with
  | .error err =>
    .ok { Nodes := none, NodeNames := none, FailedNodes := none, Error := err }
  | .ok extenderArgs =>
    match extenderArgs.NodeNames with
    | none =>
      .ok { Nodes := none, NodeNames := none, FailedNodes := none,
            Error := "gpu-admission extender must be configured with nodeCacheCapable=true" }
    | some names =>
      match extenderArgs.Pod with
      | none => .error .nilPointer
      | some _ =>
        .ok { Nodes := none, NodeNames := some (copyNodeNames names),
              FailedNodes := some [], Error := "" }

/-- The handler `PredicateRouteV2` returns.  Reading a nil `r.Body` through the
tee reader panics; the result is built by `filterResult`, marshalled and
written with status 200, or status 500 and `errMsg` when marshalling fails. -/
def PredicateRouteV2 (J : Json) (w : ResponseWriter) (r : Request) : Outcome :=
  match r.Body with
  | none => ⟨w, some .nilPointer⟩
  | some body =>
    match filterResult (J.decodeExtenderArgs body) with
    | .error pv => ⟨w, some pv⟩
    | .ok extenderFilterResult =>
      match J.marshalFilterResult extenderFilterResult with
      | .error err =>
        ⟨((w.setHeader "Content-Type" "application/json").WriteHeader
            StatusInternalServerError).Write (errMsg err), none⟩
      | .ok resultBody =>
        ⟨((w.setHeader "Content-Type" "application/json").WriteHeader
            StatusOK).Write resultBody, none⟩

/-- Lines 98 to 104 of `PrioritizeRouteV2`: `list` is made with the length of
the input, all entries zero, and entry `i` is then assigned host `v` and score
100 for every index `i` and element `v` of the input. -/
def scoreNodeNames (names : List String) : HostPriorityList :=
  (names.enum.foldl (fun list iv => list.set iv.1 { Host := iv.2, Score := 100 })
    (List.replicate names.length { Host := "", Score := 0 }))

/-- Lines 93 to 106 of `PrioritizeRouteV2`: the list the prioritize handler
builds from the outcome of decoding, or the panic it stops with.  A decode
error is passed to `panic`; the log statement of line 97 reads
`extenderArgs.Pod.Namespace` and `extenderArgs.Pod.Name`; line 98 dereferences
`extenderArgs.NodeNames`. -/
def priorityList (decoded : Except String ExtenderArgs) :
    Except PanicValue HostPriorityList :=
  match decoded with
  | .error err => .error (.err err)
  | .ok extenderArgs =>
    match extenderArgs.Pod with
    | none => .error .nilPointer
    | some _ =>
      match extenderArgs.NodeNames with
      | none => .error .nilPointer
      | some names => .ok (scoreNodeNames names)

/-- The handler `PrioritizeRouteV2` returns.  It panics where `priorityList`
does and when marshalling fails; otherwise it writes the marshalled list with
status 200. -/
def PrioritizeRouteV2 (J : Json) (w : ResponseWriter) (r : Request) : Outcome :=
  match r.Body with
  | none => ⟨w, some .nilPointer⟩
  | some body =>
    match priorityList (J.decodeExtenderArgs body) with
    | .error pv => ⟨w, some pv⟩
    | .ok list =>
      match J.marshalPriorityList list with
      | .error err => ⟨w, some (.err err)⟩
      | .ok resultBody =>
        ⟨((w.setHeader "Content-Type" "application/json").WriteHeader
            StatusOK).Write resultBody, none⟩

/-- Lines 130 to 143 of `BindRouteV2`: the flag `failed` and the result the
bind handler builds from the outcome of decoding.  The decoded arguments are
only logged. -/
def bindingResult (decoded : Except String ExtenderBindingArgs) :
    Bool × ExtenderBindingResult :=
  match decoded with
  | .error err => (true, { Error := err })
  | .ok _ => (false, { Error := "" })

/-- The handler `BindRouteV2` returns.  `checkBody` is a helper of package
`route` defined in another file; it is a parameter here, acting on the response
writer.  The handler then decodes, builds `bindingResult` and writes it with
status 500 when decoding failed and 200 otherwise, or status 500 and `errMsg`
when marshalling fails. -/
def BindRouteV2 (checkBody : ResponseWriter → Request → ResponseWriter) (J : Json)
    (w : ResponseWriter) (r : Request) : Outcome :=
  let w := checkBody w r
  match r.Body with
  | none => ⟨w, some .nilPointer⟩
  | some body =>
    let fr := bindingResult (J.decodeBindingArgs body)
    match J.marshalBindingResult fr.2 with
    | .error err =>
      ⟨((w.setHeader "Content-Type" "application/json").WriteHeader
          StatusInternalServerError).Write (errMsg err), none⟩
    | .ok resultBody =>
      let w := w.setHeader "Content-Type" "application/json"
      let w := if fr.1 then w.WriteHeader StatusInternalServerError
               else w.WriteHeader StatusOK
      ⟨w.Write resultBody, none⟩

/-- The response a handler leaves on a fresh writer when it writes `payload`
with status `code` and the JSON content type. -/
def jsonResponse (code : Nat) (payload : String) : ResponseWriter :=
  { header := [("Content-Type", "application/json")], status := some code, body := payload }

/-! ## A sample codec

Theorems about the handlers hold for every `Json`.  The codec below fixes one,
for evaluating the handlers on concrete requests.  On the request bodies
listed its decoders succeed or fail as `encoding/json` does, with the same
decoded value (a key the target struct lacks is ignored, a key it has with a
value of the wrong JSON kind is an error, a key that is absent leaves the field
nil); they reject every other body.  Its marshallers never fail. -/

/-- A filter or prioritize request naming one node and no pod. -/
def bodyNoPod : String := "\x7b\"NodeNames\":[\"n1\"]\x7d"

/-- A filter or prioritize request with a pod and no node names. -/
def bodyNoNodeNames : String :=
  "\x7b\"Pod\":\x7b\"metadata\":\x7b\"name\":\"p1\",\"namespace\":\"default\"\x7d\x7d\x7d"

/-- A filter or prioritize request with a pod and the node names A and B. -/
def bodyTwoNodes : String :=
  "\x7b\"Pod\":\x7b\"metadata\":\x7b\"name\":\"p1\",\"namespace\":\"default\"\x7d\x7d,\"NodeNames\":[\"A\",\"B\"]\x7d"

/-- A body whose `Pod` is a number: not an `ExtenderArgs`, while as
`ExtenderBindingArgs`, which has no such field, it decodes to the zero value. -/
def bodyPodNumber : String := "\x7b\"Pod\":5\x7d"

/-- A filter or prioritize request with a pod and the node name n1. -/
def bodyOneNode : String :=
  "\x7b\"Pod\":\x7b\"metadata\":\x7b\"name\":\"p1\",\"namespace\":\"default\"\x7d\x7d,\"NodeNames\":[\"n1\"]\x7d"

/-- A filter or prioritize request for the node name n1 whose pod asks for GPU
compute and memory. -/
def bodyOneNodeGpu : String :=
  "\x7b\"Pod\":\x7b\"metadata\":\x7b\"name\":\"p2\",\"namespace\":\"gpu\"\x7d,\"spec\":\x7b\"containers\":[\x7b\"name\":\"c\",\"resources\":\x7b\"requests\":\x7b\"tencent.com/vcuda-core\":\"10\",\"tencent.com/vcuda-memory\":\"8\"\x7d\x7d\x7d]\x7d\x7d,\"NodeNames\":[\"n1\"]\x7d"

/-- A bind request. -/
def bodyBind : String :=
  "\x7b\"PodName\":\"p1\",\"PodNamespace\":\"default\",\"PodUID\":\"u1\",\"Node\":\"A\"\x7d"

/-- A body that is not JSON. -/
def bodyGarbage : String := "not json"

/-- The pod of the sample requests. -/
def samplePod : Pod := { Namespace := "default", Name := "p1", Requests := [] }

/-- A pod that asks for 10 units of GPU compute and 8 units of 256MiB, that is
2GB, of GPU memory. -/
def gpuPod : Pod :=
  { Namespace := "gpu", Name := "p2",
    Requests := [("tencent.com/vcuda-core", 10), ("tencent.com/vcuda-memory", 8)] }

/-- The arguments of the scoring scenario: candidates A and B, node A with one
device at 0 of 100 compute used, node B with one device at 80 of 100 compute
used, and a pod asking for 2GB of memory and 10 compute. -/
def scenarioArgs : ExtenderArgs :=
  { Pod := some gpuPod,
    Nodes := some [
      { Name := "A", Devices := [{ memoryCapacity := 8, memoryUsed := 0,
                                   computeCapacity := 100, computeUsed := 0 }] },
      { Name := "B", Devices := [{ memoryCapacity := 8, memoryUsed := 0,
                                   computeCapacity := 100, computeUsed := 80 }] }],
    NodeNames := some ["A", "B"] }

/-- The score a priority list gives to a host: that of its first entry for the
host. -/
def scoreOf (list : HostPriorityList) (host : String) : Option Int :=
  (list.find? (fun h => h.Host == host)).map (fun h => h.Score)

/-- Whether a handler that stopped has written a response: the status line is
out. -/
def wroteResponse (o : Outcome) : Bool := o.w.status.isSome

/-- Rendering of a filter result by the sample codec. -/
def renderFilterResult (v : ExtenderFilterResult) : String :=
  "filter:" ++ String.intercalate "," (v.NodeNames.getD []) ++ ":" ++ v.Error

/-- Rendering of a priority list by the sample codec. -/
def renderPriorityList (l : HostPriorityList) : String :=
  "priorities:" ++ String.intercalate "," (l.map (fun h => h.Host))

/-- Rendering of a binding result by the sample codec. -/
def renderBindingResult (v : ExtenderBindingResult) : String :=
  "bind:" ++ v.Error

/-- The sample codec. -/
def sampleJson : Json where
  decodeExtenderArgs := fun body =>
    if body = bodyNoPod then
      .ok { Pod := none, Nodes := none, NodeNames := some ["n1"] }
    else if body = bodyNoNodeNames then
      .ok { Pod := some samplePod, Nodes := none, NodeNames := none }
    else if body = bodyTwoNodes then
      .ok { Pod := some samplePod, Nodes := none, NodeNames := some ["A", "B"] }
    else if body = bodyOneNode then
      .ok { Pod := some samplePod, Nodes := none, NodeNames := some ["n1"] }
    else if body = bodyOneNodeGpu then
      .ok { Pod := some gpuPod, Nodes := none, NodeNames := some ["n1"] }
    else if body = bodyBind then
      .ok { Pod := none, Nodes := none, NodeNames := none }
    else if body = bodyPodNumber then
      .error "json: cannot unmarshal number into Go struct field ExtenderArgs.Pod of type v1.Pod"
    else .error "invalid character"
  decodeBindingArgs := fun body =>
    if body = bodyBind then
      .ok { PodName := "p1", PodNamespace := "default", PodUID := "u1", Node := "A" }
    else if body = bodyPodNumber ∨ body = bodyNoPod ∨ body = bodyNoNodeNames
        ∨ body = bodyTwoNodes ∨ body = bodyOneNode ∨ body = bodyOneNodeGpu then
      .ok { PodName := "", PodNamespace := "", PodUID := "", Node := "" }
    else .error "invalid character"
  marshalFilterResult := fun v => .ok (renderFilterResult v)
  marshalPriorityList := fun l => .ok (renderPriorityList l)
  marshalBindingResult := fun v => .ok (renderBindingResult v)

/-- A `checkBody` that reports a missing body with status 400 and leaves the
response of a request that carries a body untouched. -/
def sampleCheckBody (w : ResponseWriter) (r : Request) : ResponseWriter :=
  match r.Body with
  | none => ((w.setHeader "Content-Type" "text/plain; charset=utf-8").WriteHeader 400).Write
      "Please send a request body\n"
  | some _ => w

/-! ## The two loops -/

theorem foldl_append_singleton (names acc : List String) :
    names.foldl (fun nodesName v => nodesName ++ [v]) acc = acc ++ names := by
  induction names generalizing acc with
  | nil => simp
  | cons v rest ih => simp [ih]

/-- The copy loop of the filter handler returns its input. -/
theorem copyNodeNames_eq (names : List String) : copyNodeNames names = names := by
  simp [copyNodeNames, foldl_append_singleton]

theorem set_loop (names : List String) (filled : HostPriorityList) (z : HostPriority) :
    (names.enumFrom filled.length).foldl
        (fun list iv => list.set iv.1 { Host := iv.2, Score := 100 })
        (filled ++ List.replicate names.length z)
      = filled ++ names.map (fun v => { Host := v, Score := 100 }) := by
  induction names generalizing filled with
  | nil => simp
  | cons v rest ih =>
    have hset : (filled ++ z :: List.replicate rest.length z).set filled.length
          { Host := v, Score := 100 }
        = (filled ++ [{ Host := v, Score := 100 }]) ++ List.replicate rest.length z := by
      simp [List.set_append]
    have hlen : filled.length + 1 = (filled ++ [({ Host := v, Score := 100 } : HostPriority)]).length := by
      simp
    simp only [List.enumFrom_cons, List.foldl_cons, List.length_cons, List.replicate_succ,
      List.map_cons]
    rw [hset, hlen, ih]
    simp

/-- The scoring loop of the prioritize handler gives every input name, in
order, the score 100. -/
theorem scoreNodeNames_eq (names : List String) :
    scoreNodeNames names = names.map (fun v => { Host := v, Score := 100 }) := by
  have h := set_loop names [] { Host := "", Score := 0 }
  simpa [scoreNodeNames, List.enum] using h

/-! ## From the built value to the response -/

theorem fresh_json_write (code : Nat) (out : String) :
    ((ResponseWriter.fresh.setHeader "Content-Type" "application/json").WriteHeader code).Write out
      = jsonResponse code out := by
  simp [ResponseWriter.fresh, ResponseWriter.setHeader, ResponseWriter.WriteHeader,
    ResponseWriter.Write, jsonResponse]

/-- When the filter handler builds `res` and `res` marshals to `out`, the
response is status 200 with body `out`. -/
theorem PredicateRouteV2_writes (J : Json) (body : String) (res : ExtenderFilterResult)
    (out : String) (hres : filterResult (J.decodeExtenderArgs body) = .ok res)
    (hm : J.marshalFilterResult res = .ok out) :
    PredicateRouteV2 J .fresh ⟨some body⟩ = ⟨jsonResponse StatusOK out, none⟩ := by
  simp [PredicateRouteV2, hres, hm, fresh_json_write]

/-- When the prioritize handler builds `list` and `list` marshals to `out`, the
response is status 200 with body `out`. -/
theorem PrioritizeRouteV2_writes (J : Json) (body : String) (list : HostPriorityList)
    (out : String) (hres : priorityList (J.decodeExtenderArgs body) = .ok list)
    (hm : J.marshalPriorityList list = .ok out) :
    PrioritizeRouteV2 J .fresh ⟨some body⟩ = ⟨jsonResponse StatusOK out, none⟩ := by
  simp [PrioritizeRouteV2, hres, hm, fresh_json_write]

/-- When the prioritize handler stops building with a panic, nothing is
written. -/
theorem PrioritizeRouteV2_panics (J : Json) (body : String) (pv : PanicValue)
    (hres : priorityList (J.decodeExtenderArgs body) = .error pv) :
    PrioritizeRouteV2 J .fresh ⟨some body⟩ = ⟨.fresh, some pv⟩ := by
  simp [PrioritizeRouteV2, hres]

/-- With a pod and a node-name list, the filter handler builds the
pass-through result. -/
theorem filterResult_passthrough (args : ExtenderArgs) (p : Pod) (names : List String)
    (hp : args.Pod = some p) (hn : args.NodeNames = some names) :
    filterResult (.ok args)
      = .ok { Nodes := none, NodeNames := some names, FailedNodes := some [], Error := "" } := by
  simp [filterResult, hp, hn, copyNodeNames_eq]

/-- With a pod and a node-name list, the prioritize handler builds the list
that gives every name the score 100. -/
theorem priorityList_scores (args : ExtenderArgs) (p : Pod) (names : List String)
    (hp : args.Pod = some p) (hn : args.NodeNames = some names) :
    priorityList (.ok args) = .ok (names.map (fun v => { Host := v, Score := 100 })) := by
  simp [priorityList, hp, hn, scoreNodeNames_eq]

/-- With a pod, a node-name list and a marshaller that accepts the pass-through
result, the filter handler answers 200 with that result. -/
theorem PredicateRouteV2_passthrough (J : Json) (body : String) (args : ExtenderArgs)
    (p : Pod) (names : List String) (out : String)
    (hd : J.decodeExtenderArgs body = .ok args)
    (hp : args.Pod = some p) (hn : args.NodeNames = some names)
    (hm : J.marshalFilterResult
        { Nodes := none, NodeNames := some names, FailedNodes := some [], Error := "" } = .ok out) :
    PredicateRouteV2 J .fresh ⟨some body⟩ = ⟨jsonResponse StatusOK out, none⟩ :=
  PredicateRouteV2_writes J body _ out (by rw [hd]; exact filterResult_passthrough args p names hp hn) hm

/-! ## The claims -/

/-- C1 (failing input): the body `bodyNoPod` decodes into `ExtenderArgs` with a
non-nil `NodeNames` list and a nil `Pod`; on it the filter handler builds no
result and writes no response: it panics on the nil `Pod` with the response
writer untouched. -/
theorem C1_filter_panics_on_nil_pod :
    sampleJson.decodeExtenderArgs bodyNoPod
        = .ok { Pod := none, Nodes := none, NodeNames := some ["n1"] }
    ∧ filterResult (.ok { Pod := none, Nodes := none, NodeNames := some ["n1"] })
        = .error .nilPointer
    ∧ PredicateRouteV2 sampleJson .fresh ⟨some bodyNoPod⟩ = ⟨.fresh, some .nilPointer⟩ := by
  decide

/-- C2 (counterexample): the body `bodyNoPod` decodes into `ExtenderArgs` with a
non-nil `NodeNames` list of length 1, and the prioritize handler does not
answer 200 with a list of length 1: it panics on the nil `Pod` and writes
nothing. -/
theorem C2_prioritize_panics_on_nil_pod :
    sampleJson.decodeExtenderArgs bodyNoPod
        = .ok { Pod := none, Nodes := none, NodeNames := some ["n1"] }
    ∧ PrioritizeRouteV2 sampleJson .fresh ⟨some bodyNoPod⟩ = ⟨.fresh, some .nilPointer⟩
    ∧ (PrioritizeRouteV2 sampleJson .fresh ⟨some bodyNoPod⟩).w.status ≠ some StatusOK := by
  decide

/-- C2 (amended): for every request that decodes into `ExtenderArgs` with a
non-nil `Pod` and a non-nil `NodeNames` list of length n, the prioritize handler
builds a list of length n whose i-th entry has the i-th input name as `Host`
and 100 as `Score`, and answers 200 with that list marshalled. -/
theorem C2_prioritize_scores_every_node (J : Json) (body : String) (args : ExtenderArgs)
    (p : Pod) (names : List String) (out : String)
    (hd : J.decodeExtenderArgs body = .ok args)
    (hp : args.Pod = some p) (hn : args.NodeNames = some names)
    (hm : J.marshalPriorityList (names.map (fun v => { Host := v, Score := 100 })) = .ok out) :
    ∃ list : HostPriorityList,
      priorityList (J.decodeExtenderArgs body) = .ok list
      ∧ J.marshalPriorityList list = .ok out
      ∧ list.length = names.length
      ∧ (∀ i (hi : i < names.length), list[i]? = some { Host := names[i], Score := 100 })
      ∧ PrioritizeRouteV2 J .fresh ⟨some body⟩ = ⟨jsonResponse StatusOK out, none⟩ := by
  have hres : priorityList (J.decodeExtenderArgs body)
      = .ok (names.map (fun v => { Host := v, Score := 100 })) := by
    rw [hd]; exact priorityList_scores args p names hp hn
  refine ⟨_, hres, hm, by simp, ?_, PrioritizeRouteV2_writes J body _ out hres hm⟩
  intro i hi
  simp [List.getElem?_map, List.getElem?_eq_getElem hi]

/-- C2 (amended) at the sample codec and the body `bodyTwoNodes`. -/
theorem C2_prioritize_scores_every_node_witness :
    sampleJson.decodeExtenderArgs bodyTwoNodes
        = .ok { Pod := some samplePod, Nodes := none, NodeNames := some ["A", "B"] }
    ∧ ∃ list : HostPriorityList,
      priorityList (sampleJson.decodeExtenderArgs bodyTwoNodes) = .ok list
      ∧ sampleJson.marshalPriorityList list = .ok (renderPriorityList
          (["A", "B"].map (fun v => { Host := v, Score := 100 })))
      ∧ list.length = ["A", "B"].length
      ∧ (∀ i (hi : i < ["A", "B"].length),
          list[i]? = some { Host := ["A", "B"][i], Score := 100 })
      ∧ PrioritizeRouteV2 sampleJson .fresh ⟨some bodyTwoNodes⟩
          = ⟨jsonResponse StatusOK (renderPriorityList
              (["A", "B"].map (fun v => { Host := v, Score := 100 }))), none⟩ :=
  ⟨by decide,
   C2_prioritize_scores_every_node sampleJson bodyTwoNodes
     { Pod := some samplePod, Nodes := none, NodeNames := some ["A", "B"] } samplePod
     ["A", "B"] _ (by decide) rfl rfl rfl⟩

/-- When the bind handler decodes its arguments, the response is status 200
with the marshalled empty-error result. -/
theorem BindRouteV2_ok (checkBody : ResponseWriter → Request → ResponseWriter) (J : Json)
    (body : String) (a : ExtenderBindingArgs) (out : String)
    (hcb : checkBody .fresh ⟨some body⟩ = .fresh)
    (hd : J.decodeBindingArgs body = .ok a)
    (hm : J.marshalBindingResult { Error := "" } = .ok out) :
    BindRouteV2 checkBody J .fresh ⟨some body⟩ = ⟨jsonResponse StatusOK out, none⟩ := by
  simp [BindRouteV2, bindingResult, hcb, hd, hm, fresh_json_write]

/-- When the bind handler fails to decode, the response is status 500 with the
marshalled result that carries the decode error. -/
theorem BindRouteV2_error (checkBody : ResponseWriter → Request → ResponseWriter) (J : Json)
    (body : String) (e : String) (out : String)
    (hcb : checkBody .fresh ⟨some body⟩ = .fresh)
    (hd : J.decodeBindingArgs body = .error e)
    (hm : J.marshalBindingResult { Error := e } = .ok out) :
    BindRouteV2 checkBody J .fresh ⟨some body⟩
      = ⟨jsonResponse StatusInternalServerError out, none⟩ := by
  simp [BindRouteV2, bindingResult, hcb, hd, hm, fresh_json_write]

/-- C3: for a request carrying a body, on which `checkBody` leaves the response
untouched, and a marshaller that accepts binding results, the bind handler
answers 200 with the empty-error result when the body decodes and 500 with the
decode error as `Error` when it does not; the status is 200 exactly when the
body decodes; and any two bodies that decode, whatever pod name, namespace, UID
and node they name, get the same response. -/
theorem C3_bind_only_acknowledges (checkBody : ResponseWriter → Request → ResponseWriter)
    (J : Json) (body : String)
    (hcb : ∀ b, checkBody .fresh ⟨some b⟩ = .fresh)
    (hm : ∀ v, ∃ out, J.marshalBindingResult v = .ok out) :
    (∀ a, J.decodeBindingArgs body = .ok a →
      ∃ out, J.marshalBindingResult { Error := "" } = .ok out
        ∧ BindRouteV2 checkBody J .fresh ⟨some body⟩ = ⟨jsonResponse StatusOK out, none⟩)
    ∧ (∀ e, J.decodeBindingArgs body = .error e →
      ∃ out, J.marshalBindingResult { Error := e } = .ok out
        ∧ BindRouteV2 checkBody J .fresh ⟨some body⟩
            = ⟨jsonResponse StatusInternalServerError out, none⟩)
    ∧ ((BindRouteV2 checkBody J .fresh ⟨some body⟩).w.status = some StatusOK
        ↔ ∃ a, J.decodeBindingArgs body = .ok a)
    ∧ (∀ body2 a a2, J.decodeBindingArgs body = .ok a → J.decodeBindingArgs body2 = .ok a2 →
        BindRouteV2 checkBody J .fresh ⟨some body2⟩
          = BindRouteV2 checkBody J .fresh ⟨some body⟩) := by
  refine ⟨?_, ?_, ?_, ?_⟩
  · intro a hd
    obtain ⟨out, ho⟩ := hm { Error := "" }
    exact ⟨out, ho, BindRouteV2_ok checkBody J body a out (hcb body) hd ho⟩
  · intro e hd
    obtain ⟨out, ho⟩ := hm { Error := e }
    exact ⟨out, ho, BindRouteV2_error checkBody J body e out (hcb body) hd ho⟩
  · cases hd : J.decodeBindingArgs body with
    | error e =>
      obtain ⟨out, ho⟩ := hm { Error := e }
      rw [BindRouteV2_error checkBody J body e out (hcb body) hd ho]
      simp [jsonResponse, StatusOK, StatusInternalServerError]
    | ok a =>
      obtain ⟨out, ho⟩ := hm { Error := "" }
      rw [BindRouteV2_ok checkBody J body a out (hcb body) hd ho]
      simp [jsonResponse]
  · intro body2 a a2 hd hd2
    obtain ⟨out, ho⟩ := hm { Error := "" }
    rw [BindRouteV2_ok checkBody J body a out (hcb body) hd ho,
      BindRouteV2_ok checkBody J body2 a2 out (hcb body2) hd2 ho]

/-- C3 at the sample codec, the sample `checkBody` and the body `bodyBind`. -/
theorem C3_bind_only_acknowledges_witness :
    (∀ b, sampleCheckBody .fresh ⟨some b⟩ = .fresh)
    ∧ (∀ v, ∃ out, sampleJson.marshalBindingResult v = .ok out)
    ∧ ((∀ a, sampleJson.decodeBindingArgs bodyBind = .ok a →
        ∃ out, sampleJson.marshalBindingResult { Error := "" } = .ok out
          ∧ BindRouteV2 sampleCheckBody sampleJson .fresh ⟨some bodyBind⟩
              = ⟨jsonResponse StatusOK out, none⟩)
      ∧ (∀ e, sampleJson.decodeBindingArgs bodyBind = .error e →
        ∃ out, sampleJson.marshalBindingResult { Error := e } = .ok out
          ∧ BindRouteV2 sampleCheckBody sampleJson .fresh ⟨some bodyBind⟩
              = ⟨jsonResponse StatusInternalServerError out, none⟩)
      ∧ ((BindRouteV2 sampleCheckBody sampleJson .fresh ⟨some bodyBind⟩).w.status
            = some StatusOK
          ↔ ∃ a, sampleJson.decodeBindingArgs bodyBind = .ok a)
      ∧ (∀ body2 a a2, sampleJson.decodeBindingArgs bodyBind = .ok a →
          sampleJson.decodeBindingArgs body2 = .ok a2 →
          BindRouteV2 sampleCheckBody sampleJson .fresh ⟨some body2⟩
            = BindRouteV2 sampleCheckBody sampleJson .fresh ⟨some bodyBind⟩)) :=
  ⟨fun _ => rfl, fun _ => ⟨_, rfl⟩,
   C3_bind_only_acknowledges sampleCheckBody sampleJson bodyBind (fun _ => rfl)
     (fun _ => ⟨_, rfl⟩)⟩

/-- C4: for every body that fails to decode as `ExtenderArgs`, the filter
handler builds the result whose `Error` is the decode error and whose `Nodes`,
`NodeNames` and `FailedNodes` are nil, does not panic, and answers with status
200 and that result marshalled. -/
theorem C4_filter_decode_error_is_structured (J : Json) (body : String) (e : String)
    (out : String) (hd : J.decodeExtenderArgs body = .error e)
    (hm : J.marshalFilterResult
        { Nodes := none, NodeNames := none, FailedNodes := none, Error := e } = .ok out) :
    filterResult (J.decodeExtenderArgs body)
        = .ok { Nodes := none, NodeNames := none, FailedNodes := none, Error := e }
    ∧ PredicateRouteV2 J .fresh ⟨some body⟩ = ⟨jsonResponse StatusOK out, none⟩
    ∧ (PredicateRouteV2 J .fresh ⟨some body⟩).panic = none
    ∧ (PredicateRouteV2 J .fresh ⟨some body⟩).w.status = some StatusOK := by
  have hres : filterResult (J.decodeExtenderArgs body)
      = .ok { Nodes := none, NodeNames := none, FailedNodes := none, Error := e } := by
    rw [hd]; rfl
  have hw := PredicateRouteV2_writes J body _ out hres hm
  refine ⟨hres, hw, ?_, ?_⟩ <;> simp [hw, jsonResponse]

/-- C4 at the sample codec and the body `bodyGarbage`. -/
theorem C4_filter_decode_error_is_structured_witness :
    sampleJson.decodeExtenderArgs bodyGarbage = .error "invalid character"
    ∧ sampleJson.marshalFilterResult
        { Nodes := none, NodeNames := none, FailedNodes := none, Error := "invalid character" }
        = .ok (renderFilterResult
          { Nodes := none, NodeNames := none, FailedNodes := none, Error := "invalid character" })
    ∧ (filterResult (sampleJson.decodeExtenderArgs bodyGarbage)
        = .ok { Nodes := none, NodeNames := none, FailedNodes := none,
                Error := "invalid character" }
      ∧ PredicateRouteV2 sampleJson .fresh ⟨some bodyGarbage⟩
        = ⟨jsonResponse StatusOK (renderFilterResult
            { Nodes := none, NodeNames := none, FailedNodes := none,
              Error := "invalid character" }), none⟩
      ∧ (PredicateRouteV2 sampleJson .fresh ⟨some bodyGarbage⟩).panic = none
      ∧ (PredicateRouteV2 sampleJson .fresh ⟨some bodyGarbage⟩).w.status = some StatusOK) :=
  ⟨by decide, rfl,
   C4_filter_decode_error_is_structured sampleJson bodyGarbage "invalid character" _
     (by decide) rfl⟩

/-- C5 (counterexample): the body `bodyPodNumber` fails to decode as
`ExtenderArgs`, so the prioritize handler panics with the decode error and
writes nothing, yet the bind handler returns no error result for the same body:
as `ExtenderBindingArgs` the body decodes, and bind answers 200 with an empty
`Error`. -/
theorem C5_bind_accepts_body_prioritize_rejects :
    sampleJson.decodeExtenderArgs bodyPodNumber
        = .error "json: cannot unmarshal number into Go struct field ExtenderArgs.Pod of type v1.Pod"
    ∧ PrioritizeRouteV2 sampleJson .fresh ⟨some bodyPodNumber⟩
        = ⟨.fresh, some (.err
            "json: cannot unmarshal number into Go struct field ExtenderArgs.Pod of type v1.Pod")⟩
    ∧ bindingResult (sampleJson.decodeBindingArgs bodyPodNumber) = (false, { Error := "" })
    ∧ BindRouteV2 sampleCheckBody sampleJson .fresh ⟨some bodyPodNumber⟩
        = ⟨jsonResponse StatusOK (renderBindingResult { Error := "" }), none⟩ := by
  decide

/-- C5 (amended): for every body that fails to decode as `ExtenderArgs`, the
prioritize handler panics with the decode error and writes no response, while
the filter handler answers the same body with status 200 and the result whose
`Error` is the decode error; and the bind handler answers every body that fails
to decode as `ExtenderBindingArgs` with status 500 and the result whose `Error`
is that decode error. -/
theorem C5_prioritize_panics_on_decode_error
    (checkBody : ResponseWriter → Request → ResponseWriter) (J : Json) (body : String)
    (e : String) (out : String)
    (hd : J.decodeExtenderArgs body = .error e)
    (hm : J.marshalFilterResult
        { Nodes := none, NodeNames := none, FailedNodes := none, Error := e } = .ok out)
    (hcb : ∀ b, checkBody .fresh ⟨some b⟩ = .fresh)
    (hmb : ∀ v, ∃ o, J.marshalBindingResult v = .ok o) :
    PrioritizeRouteV2 J .fresh ⟨some body⟩ = ⟨.fresh, some (.err e)⟩
    ∧ wroteResponse (PrioritizeRouteV2 J .fresh ⟨some body⟩) = false
    ∧ (PrioritizeRouteV2 J .fresh ⟨some body⟩).w.body = ""
    ∧ filterResult (J.decodeExtenderArgs body)
        = .ok { Nodes := none, NodeNames := none, FailedNodes := none, Error := e }
    ∧ PredicateRouteV2 J .fresh ⟨some body⟩ = ⟨jsonResponse StatusOK out, none⟩
    ∧ (∀ body2 e2, J.decodeBindingArgs body2 = .error e2 →
        ∃ o, J.marshalBindingResult { Error := e2 } = .ok o
          ∧ BindRouteV2 checkBody J .fresh ⟨some body2⟩
              = ⟨jsonResponse StatusInternalServerError o, none⟩) := by
  have hp : PrioritizeRouteV2 J .fresh ⟨some body⟩ = ⟨.fresh, some (.err e)⟩ :=
    PrioritizeRouteV2_panics J body (.err e) (by rw [hd]; rfl)
  have hres : filterResult (J.decodeExtenderArgs body)
      = .ok { Nodes := none, NodeNames := none, FailedNodes := none, Error := e } := by
    rw [hd]; rfl
  refine ⟨hp, by rw [hp]; rfl, by rw [hp]; rfl, hres,
    PredicateRouteV2_writes J body _ out hres hm, ?_⟩
  intro body2 e2 hd2
  obtain ⟨o, ho⟩ := hmb { Error := e2 }
  exact ⟨o, ho, BindRouteV2_error checkBody J body2 e2 o (hcb body2) hd2 ho⟩

/-- C5 (amended) at the sample codec, the sample `checkBody` and the body
`bodyGarbage`. -/
theorem C5_prioritize_panics_on_decode_error_witness :
    sampleJson.decodeExtenderArgs bodyGarbage = .error "invalid character"
    ∧ sampleJson.marshalFilterResult
        { Nodes := none, NodeNames := none, FailedNodes := none, Error := "invalid character" }
        = .ok (renderFilterResult
          { Nodes := none, NodeNames := none, FailedNodes := none, Error := "invalid character" })
    ∧ (∀ b, sampleCheckBody .fresh ⟨some b⟩ = .fresh)
    ∧ (∀ v, ∃ o, sampleJson.marshalBindingResult v = .ok o)
    ∧ (PrioritizeRouteV2 sampleJson .fresh ⟨some bodyGarbage⟩
          = ⟨.fresh, some (.err "invalid character")⟩
      ∧ wroteResponse (PrioritizeRouteV2 sampleJson .fresh ⟨some bodyGarbage⟩) = false
      ∧ (PrioritizeRouteV2 sampleJson .fresh ⟨some bodyGarbage⟩).w.body = ""
      ∧ filterResult (sampleJson.decodeExtenderArgs bodyGarbage)
          = .ok { Nodes := none, NodeNames := none, FailedNodes := none,
                  Error := "invalid character" }
      ∧ PredicateRouteV2 sampleJson .fresh ⟨some bodyGarbage⟩
          = ⟨jsonResponse StatusOK (renderFilterResult
              { Nodes := none, NodeNames := none, FailedNodes := none,
                Error := "invalid character" }), none⟩
      ∧ (∀ body2 e2, sampleJson.decodeBindingArgs body2 = .error e2 →
          ∃ o, sampleJson.marshalBindingResult { Error := e2 } = .ok o
            ∧ BindRouteV2 sampleCheckBody sampleJson .fresh ⟨some body2⟩
                = ⟨jsonResponse StatusInternalServerError o, none⟩)) :=
  ⟨by decide, rfl, fun _ => rfl, fun _ => ⟨_, rfl⟩,
   C5_prioritize_panics_on_decode_error sampleCheckBody sampleJson bodyGarbage
     "invalid character" _ (by decide) rfl (fun _ => rfl) (fun _ => ⟨_, rfl⟩)⟩

/-- C6: for all decoded arguments with a non-nil `NodeNames` list, the filter
handler builds a result exactly when the prioritize handler builds a list, and
then the `Host` values of the list are, in order, the `NodeNames` of the filter
result; with a non-nil `Pod` both are built and both sequences are the input
names; and prioritizing the node names the filter returned yields one entry
per returned name, in the same order. -/
theorem C6_scored_hosts_are_filtered_names (args : ExtenderArgs) (names : List String)
    (hn : args.NodeNames = some names) :
    (∀ p, args.Pod = some p →
      ∃ res list, filterResult (.ok args) = .ok res ∧ priorityList (.ok args) = .ok list
        ∧ res.NodeNames = some names ∧ list.map (fun h => h.Host) = names)
    ∧ (∀ res, filterResult (.ok args) = .ok res →
      ∃ list, priorityList (.ok args) = .ok list
        ∧ res.NodeNames = some (list.map (fun h => h.Host)))
    ∧ (∀ list, priorityList (.ok args) = .ok list →
      ∃ res, filterResult (.ok args) = .ok res
        ∧ res.NodeNames = some (list.map (fun h => h.Host)))
    ∧ (∀ res, filterResult (.ok args) = .ok res →
      ∃ returned list, res.NodeNames = some returned
        ∧ priorityList (.ok { args with NodeNames := res.NodeNames }) = .ok list
        ∧ list.map (fun h => h.Host) = returned
        ∧ list.length = returned.length) := by
  have hmap : (names.map (fun v => ({ Host := v, Score := 100 } : HostPriority))).map
      (fun h => h.Host) = names := by
    simp [List.map_map, Function.comp_def]
  cases hp : args.Pod with
  | none =>
    refine ⟨fun p h => by simp at h, ?_, ?_, ?_⟩
    · intro res h
      simp [filterResult, hn, hp] at h
    · intro list h
      simp [priorityList, hp] at h
    · intro res h
      simp [filterResult, hn, hp] at h
  | some p =>
    have hf := filterResult_passthrough args p names hp hn
    have hl := priorityList_scores args p names hp hn
    refine ⟨fun _ _ => ⟨_, _, hf, hl, rfl, hmap⟩, ?_, ?_, ?_⟩
    · intro res h
      rw [hf] at h
      cases h
      exact ⟨_, hl, by rw [hmap]⟩
    · intro list h
      rw [hl] at h
      cases h
      exact ⟨_, hf, by rw [hmap]⟩
    · intro res h
      rw [hf] at h
      cases h
      exact ⟨names, _, rfl, priorityList_scores _ p names rfl rfl, hmap, by simp⟩

/-- C6 at the arguments of the scoring scenario. -/
theorem C6_scored_hosts_are_filtered_names_witness :
    scenarioArgs.NodeNames = some ["A", "B"]
    ∧ ((∀ p, scenarioArgs.Pod = some p →
        ∃ res list, filterResult (.ok scenarioArgs) = .ok res
          ∧ priorityList (.ok scenarioArgs) = .ok list
          ∧ res.NodeNames = some ["A", "B"] ∧ list.map (fun h => h.Host) = ["A", "B"])
      ∧ (∀ res, filterResult (.ok scenarioArgs) = .ok res →
        ∃ list, priorityList (.ok scenarioArgs) = .ok list
          ∧ res.NodeNames = some (list.map (fun h => h.Host)))
      ∧ (∀ list, priorityList (.ok scenarioArgs) = .ok list →
        ∃ res, filterResult (.ok scenarioArgs) = .ok res
          ∧ res.NodeNames = some (list.map (fun h => h.Host)))
      ∧ (∀ res, filterResult (.ok scenarioArgs) = .ok res →
        ∃ returned list, res.NodeNames = some returned
          ∧ priorityList (.ok { scenarioArgs with NodeNames := res.NodeNames }) = .ok list
          ∧ list.map (fun h => h.Host) = returned
          ∧ list.length = returned.length)) :=
  ⟨rfl, C6_scored_hosts_are_filtered_names scenarioArgs ["A", "B"] rfl⟩

/-- C7 (counterexample): in the scenario the prioritize handler builds the list
that gives A and B the score 100 each, so B is not scored strictly higher than
A. -/
theorem C7_scenario_scores_are_equal :
    priorityList (.ok scenarioArgs)
        = .ok [{ Host := "A", Score := 100 }, { Host := "B", Score := 100 }]
    ∧ ¬ (∃ list a b, priorityList (.ok scenarioArgs) = .ok list
          ∧ scoreOf list "A" = some a ∧ scoreOf list "B" = some b ∧ a < b) := by
  have h : priorityList (.ok scenarioArgs)
      = .ok [{ Host := "A", Score := 100 }, { Host := "B", Score := 100 }] := by decide
  refine ⟨h, ?_⟩
  rintro ⟨list, a, b, hl, ha, hb, hlt⟩
  rw [h] at hl
  cases hl
  have ha2 : scoreOf [{ Host := "A", Score := 100 }, { Host := "B", Score := 100 }] "A"
      = some 100 := by decide
  have hb2 : scoreOf [{ Host := "A", Score := 100 }, { Host := "B", Score := 100 }] "B"
      = some 100 := by decide
  rw [ha2] at ha
  rw [hb2] at hb
  cases ha
  cases hb
  exact absurd hlt (by decide)

/-- C7 (amended): whenever the candidate list is A then B and the request names
a pod, whatever the pod asks for and whatever state the nodes are in, the
prioritize handler gives B the same score as A: both get 100. -/
theorem C7_scores_do_not_depend_on_usage (args : ExtenderArgs) (p : Pod)
    (hp : args.Pod = some p) (hn : args.NodeNames = some ["A", "B"]) :
    ∃ list, priorityList (.ok args) = .ok list
      ∧ scoreOf list "A" = some 100 ∧ scoreOf list "B" = some 100 := by
  refine ⟨_, priorityList_scores args p ["A", "B"] hp hn, ?_, ?_⟩ <;> decide

/-- C7 (amended) at the arguments of the scoring scenario. -/
theorem C7_scores_do_not_depend_on_usage_witness :
    scenarioArgs.Pod = some gpuPod ∧ scenarioArgs.NodeNames = some ["A", "B"]
    ∧ ∃ list, priorityList (.ok scenarioArgs) = .ok list
      ∧ scoreOf list "A" = some 100 ∧ scoreOf list "B" = some 100 :=
  ⟨rfl, rfl, C7_scores_do_not_depend_on_usage scenarioArgs gpuPod rfl rfl⟩

/-- C8 (counterexample): the bodies `bodyNoPod` and `bodyOneNode` decode to
arguments with the same non-nil `NodeNames` list and different `Pod` fields, and
get different outcomes from the filter handler and from the prioritize
handler: both handlers panic on the first and answer 200 on the second. -/
theorem C8_outcome_depends_on_pod_being_nil :
    sampleJson.decodeExtenderArgs bodyNoPod
        = .ok { Pod := none, Nodes := none, NodeNames := some ["n1"] }
    ∧ sampleJson.decodeExtenderArgs bodyOneNode
        = .ok { Pod := some samplePod, Nodes := none, NodeNames := some ["n1"] }
    ∧ PredicateRouteV2 sampleJson .fresh ⟨some bodyNoPod⟩
        ≠ PredicateRouteV2 sampleJson .fresh ⟨some bodyOneNode⟩
    ∧ PrioritizeRouteV2 sampleJson .fresh ⟨some bodyNoPod⟩
        ≠ PrioritizeRouteV2 sampleJson .fresh ⟨some bodyOneNode⟩
    ∧ (PrioritizeRouteV2 sampleJson .fresh ⟨some bodyNoPod⟩).w.status = none
    ∧ (PrioritizeRouteV2 sampleJson .fresh ⟨some bodyOneNode⟩).w.status = some StatusOK := by
  decide

/-- C8 (amended): any two requests that decode to arguments with the same
non-nil `NodeNames` list and non-nil `Pod` fields, whatever the two pods and
the two `Nodes` fields contain, get the same built result and the same outcome
from the filter handler, and the same built list and the same outcome from the
prioritize handler. -/
theorem C8_responses_depend_only_on_node_names (J : Json) (body1 body2 : String)
    (args1 args2 : ExtenderArgs) (p1 p2 : Pod) (names : List String)
    (hd1 : J.decodeExtenderArgs body1 = .ok args1)
    (hd2 : J.decodeExtenderArgs body2 = .ok args2)
    (hp1 : args1.Pod = some p1) (hp2 : args2.Pod = some p2)
    (hn1 : args1.NodeNames = some names) (hn2 : args2.NodeNames = some names) :
    filterResult (J.decodeExtenderArgs body1) = filterResult (J.decodeExtenderArgs body2)
    ∧ PredicateRouteV2 J .fresh ⟨some body1⟩ = PredicateRouteV2 J .fresh ⟨some body2⟩
    ∧ priorityList (J.decodeExtenderArgs body1) = priorityList (J.decodeExtenderArgs body2)
    ∧ PrioritizeRouteV2 J .fresh ⟨some body1⟩ = PrioritizeRouteV2 J .fresh ⟨some body2⟩ := by
  have hf : filterResult (J.decodeExtenderArgs body1)
      = filterResult (J.decodeExtenderArgs body2) := by
    rw [hd1, hd2, filterResult_passthrough args1 p1 names hp1 hn1,
      filterResult_passthrough args2 p2 names hp2 hn2]
  have hl : priorityList (J.decodeExtenderArgs body1)
      = priorityList (J.decodeExtenderArgs body2) := by
    rw [hd1, hd2, priorityList_scores args1 p1 names hp1 hn1,
      priorityList_scores args2 p2 names hp2 hn2]
  refine ⟨hf, ?_, hl, ?_⟩
  · simp only [PredicateRouteV2, hf]
  · simp only [PrioritizeRouteV2, hl]

set_option maxRecDepth 16384 in
/-- C8 (amended) at the sample codec and the bodies `bodyOneNode` and
`bodyOneNodeGpu`, whose pods differ. -/
theorem C8_responses_depend_only_on_node_names_witness :
    sampleJson.decodeExtenderArgs bodyOneNode
        = .ok { Pod := some samplePod, Nodes := none, NodeNames := some ["n1"] }
    ∧ sampleJson.decodeExtenderArgs bodyOneNodeGpu
        = .ok { Pod := some gpuPod, Nodes := none, NodeNames := some ["n1"] }
    ∧ samplePod ≠ gpuPod
    ∧ (filterResult (sampleJson.decodeExtenderArgs bodyOneNode)
          = filterResult (sampleJson.decodeExtenderArgs bodyOneNodeGpu)
      ∧ PredicateRouteV2 sampleJson .fresh ⟨some bodyOneNode⟩
          = PredicateRouteV2 sampleJson .fresh ⟨some bodyOneNodeGpu⟩
      ∧ priorityList (sampleJson.decodeExtenderArgs bodyOneNode)
          = priorityList (sampleJson.decodeExtenderArgs bodyOneNodeGpu)
      ∧ PrioritizeRouteV2 sampleJson .fresh ⟨some bodyOneNode⟩
          = PrioritizeRouteV2 sampleJson .fresh ⟨some bodyOneNodeGpu⟩) :=
  ⟨by decide, by decide, by decide,
   C8_responses_depend_only_on_node_names sampleJson bodyOneNode bodyOneNodeGpu
     { Pod := some samplePod, Nodes := none, NodeNames := some ["n1"] }
     { Pod := some gpuPod, Nodes := none, NodeNames := some ["n1"] }
     samplePod gpuPod ["n1"] (by decide) (by decide) rfl rfl rfl rfl⟩

/-- With a nil `NodeNames`, whatever the `Pod` and `Nodes` fields hold, the
filter handler builds the result that asks for `nodeCacheCapable`. -/
theorem filterResult_no_node_names (args : ExtenderArgs) (hn : args.NodeNames = none) :
    filterResult (.ok args)
      = .ok { Nodes := none, NodeNames := none, FailedNodes := none,
              Error := "gpu-admission extender must be configured with nodeCacheCapable=true" } := by
  simp [filterResult, hn]

/-- C9: for every request that decodes into `ExtenderArgs` with a nil
`NodeNames`, whatever its `Pod` and `Nodes` fields, the filter handler builds
the result whose `Error` is the `nodeCacheCapable` message and whose `Nodes`,
`NodeNames` and `FailedNodes` are nil, and answers 200 with it; and every
decoded request for which the handler builds a result with a non-empty `Error`
has a nil `NodeNames`. -/
theorem C9_filter_requires_node_names (J : Json) (body : String) (args : ExtenderArgs)
    (out : String) (hd : J.decodeExtenderArgs body = .ok args)
    (hn : args.NodeNames = none)
    (hm : J.marshalFilterResult
        { Nodes := none, NodeNames := none, FailedNodes := none,
          Error := "gpu-admission extender must be configured with nodeCacheCapable=true" }
        = .ok out) :
    filterResult (J.decodeExtenderArgs body)
        = .ok { Nodes := none, NodeNames := none, FailedNodes := none,
                Error := "gpu-admission extender must be configured with nodeCacheCapable=true" }
    ∧ PredicateRouteV2 J .fresh ⟨some body⟩ = ⟨jsonResponse StatusOK out, none⟩
    ∧ (∀ body2 args2 res, J.decodeExtenderArgs body2 = .ok args2 →
        filterResult (J.decodeExtenderArgs body2) = .ok res → res.Error ≠ "" →
        args2.NodeNames = none) := by
  have hres : filterResult (J.decodeExtenderArgs body)
      = .ok { Nodes := none, NodeNames := none, FailedNodes := none,
              Error := "gpu-admission extender must be configured with nodeCacheCapable=true" } := by
    rw [hd]; exact filterResult_no_node_names args hn
  refine ⟨hres, PredicateRouteV2_writes J body _ out hres hm, ?_⟩
  intro body2 args2 res hd2 hr hne
  rw [hd2] at hr
  cases hn2 : args2.NodeNames with
  | none => rfl
  | some names =>
    exfalso
    cases hp2 : args2.Pod with
    | none => simp [filterResult, hn2, hp2] at hr
    | some p =>
      rw [filterResult_passthrough args2 p names hp2 hn2] at hr
      cases hr
      exact hne rfl

/-- C9 at the sample codec and the body `bodyNoNodeNames`. -/
theorem C9_filter_requires_node_names_witness :
    sampleJson.decodeExtenderArgs bodyNoNodeNames
        = .ok { Pod := some samplePod, Nodes := none, NodeNames := none }
    ∧ ({ Pod := some samplePod, Nodes := none, NodeNames := none } : ExtenderArgs).NodeNames
        = none
    ∧ sampleJson.marshalFilterResult
        { Nodes := none, NodeNames := none, FailedNodes := none,
          Error := "gpu-admission extender must be configured with nodeCacheCapable=true" }
        = .ok (renderFilterResult
          { Nodes := none, NodeNames := none, FailedNodes := none,
            Error := "gpu-admission extender must be configured with nodeCacheCapable=true" })
    ∧ (filterResult (sampleJson.decodeExtenderArgs bodyNoNodeNames)
          = .ok { Nodes := none, NodeNames := none, FailedNodes := none,
                  Error := "gpu-admission extender must be configured with nodeCacheCapable=true" }
      ∧ PredicateRouteV2 sampleJson .fresh ⟨some bodyNoNodeNames⟩
          = ⟨jsonResponse StatusOK (renderFilterResult
              { Nodes := none, NodeNames := none, FailedNodes := none,
                Error := "gpu-admission extender must be configured with nodeCacheCapable=true" }),
             none⟩
      ∧ (∀ body2 args2 res, sampleJson.decodeExtenderArgs body2 = .ok args2 →
          filterResult (sampleJson.decodeExtenderArgs body2) = .ok res → res.Error ≠ "" →
          args2.NodeNames = none)) :=
  ⟨by decide, rfl, rfl,
   C9_filter_requires_node_names sampleJson bodyNoNodeNames
     { Pod := some samplePod, Nodes := none, NodeNames := none } _ (by decide) rfl rfl⟩

/-- C10 (counterexample): the body `bodyNoPod` decodes and its `NodeNames` is
non-nil, yet the prioritize handler writes no response: it panics on the nil
`Pod`.  So it is not the case that prioritize writes a response exactly when
the body decodes with a non-nil `NodeNames`. -/
theorem C10_no_response_with_node_names :
    sampleJson.decodeExtenderArgs bodyNoPod
        = .ok { Pod := none, Nodes := none, NodeNames := some ["n1"] }
    ∧ wroteResponse (PrioritizeRouteV2 sampleJson .fresh ⟨some bodyNoPod⟩) = false
    ∧ ¬ (wroteResponse (PrioritizeRouteV2 sampleJson .fresh ⟨some bodyNoPod⟩) = true
          ↔ ∃ args names, sampleJson.decodeExtenderArgs bodyNoPod = .ok args
              ∧ args.NodeNames = some names) := by
  have hd : sampleJson.decodeExtenderArgs bodyNoPod
      = .ok { Pod := none, Nodes := none, NodeNames := some ["n1"] } := by decide
  have hw : wroteResponse (PrioritizeRouteV2 sampleJson .fresh ⟨some bodyNoPod⟩) = false := by
    decide
  refine ⟨hd, hw, ?_⟩
  intro h
  have := h.mpr ⟨_, _, hd, rfl⟩
  rw [hw] at this
  exact absurd this (by decide)

/-- C10 (amended): with marshallers that accept what the handlers build, for
every request that decodes into `ExtenderArgs` with a nil `NodeNames` the
prioritize handler panics on a nil pointer and writes nothing, whereas the
filter handler answers 200 with the `nodeCacheCapable` error result; and the
prioritize handler writes a response exactly when the body decodes and both
`Pod` and `NodeNames` are non-nil. -/
theorem C10_prioritize_responds_iff (J : Json) (body : String)
    (hm : ∀ l, ∃ out, J.marshalPriorityList l = .ok out)
    (hmf : ∀ v, ∃ out, J.marshalFilterResult v = .ok out) :
    (∀ args, J.decodeExtenderArgs body = .ok args → args.NodeNames = none →
      PrioritizeRouteV2 J .fresh ⟨some body⟩ = ⟨.fresh, some .nilPointer⟩
      ∧ ∃ out, J.marshalFilterResult
            { Nodes := none, NodeNames := none, FailedNodes := none,
              Error := "gpu-admission extender must be configured with nodeCacheCapable=true" }
            = .ok out
          ∧ PredicateRouteV2 J .fresh ⟨some body⟩ = ⟨jsonResponse StatusOK out, none⟩)
    ∧ (wroteResponse (PrioritizeRouteV2 J .fresh ⟨some body⟩) = true
        ↔ ∃ args p names, J.decodeExtenderArgs body = .ok args
            ∧ args.Pod = some p ∧ args.NodeNames = some names) := by
  constructor
  · intro args hd hn
    constructor
    · apply PrioritizeRouteV2_panics
      rw [hd]
      cases hp : args.Pod <;> simp [priorityList, hp, hn]
    · obtain ⟨out, ho⟩ := hmf
        { Nodes := none, NodeNames := none, FailedNodes := none,
          Error := "gpu-admission extender must be configured with nodeCacheCapable=true" }
      exact ⟨out, ho, PredicateRouteV2_writes J body _ out
        (by rw [hd]; exact filterResult_no_node_names args hn) ho⟩
  · cases hd : J.decodeExtenderArgs body with
    | error e =>
      rw [PrioritizeRouteV2_panics J body (.err e) (by rw [hd]; rfl)]
      simp [wroteResponse, ResponseWriter.fresh]
    | ok args =>
      cases hp : args.Pod with
      | none =>
        rw [PrioritizeRouteV2_panics J body .nilPointer (by rw [hd]; simp [priorityList, hp])]
        simp [wroteResponse, ResponseWriter.fresh, hp]
      | some p =>
        cases hn : args.NodeNames with
        | none =>
          rw [PrioritizeRouteV2_panics J body .nilPointer
            (by rw [hd]; simp [priorityList, hp, hn])]
          simp [wroteResponse, ResponseWriter.fresh, hn]
        | some names =>
          obtain ⟨out, ho⟩ := hm (names.map (fun v => { Host := v, Score := 100 }))
          rw [PrioritizeRouteV2_writes J body _ out
            (by rw [hd]; exact priorityList_scores args p names hp hn) ho]
          simp [wroteResponse, jsonResponse, hp, hn]

/-- C10 (amended) at the sample codec and the body `bodyNoNodeNames`. -/
theorem C10_prioritize_responds_iff_witness :
    (∀ l, ∃ out, sampleJson.marshalPriorityList l = .ok out)
    ∧ (∀ v, ∃ out, sampleJson.marshalFilterResult v = .ok out)
    ∧ ((∀ args, sampleJson.decodeExtenderArgs bodyNoNodeNames = .ok args →
        args.NodeNames = none →
        PrioritizeRouteV2 sampleJson .fresh ⟨some bodyNoNodeNames⟩
            = ⟨.fresh, some .nilPointer⟩
        ∧ ∃ out, sampleJson.marshalFilterResult
              { Nodes := none, NodeNames := none, FailedNodes := none,
                Error := "gpu-admission extender must be configured with nodeCacheCapable=true" }
              = .ok out
            ∧ PredicateRouteV2 sampleJson .fresh ⟨some bodyNoNodeNames⟩
                = ⟨jsonResponse StatusOK out, none⟩)
      ∧ (wroteResponse (PrioritizeRouteV2 sampleJson .fresh ⟨some bodyNoNodeNames⟩) = true
          ↔ ∃ args p names, sampleJson.decodeExtenderArgs bodyNoNodeNames = .ok args
              ∧ args.Pod = some p ∧ args.NodeNames = some names)) :=
  ⟨fun _ => ⟨_, rfl⟩, fun _ => ⟨_, rfl⟩,
   C10_prioritize_responds_iff sampleJson bodyNoNodeNames (fun _ => ⟨_, rfl⟩)
     (fun _ => ⟨_, rfl⟩)⟩

end GpuAdmission
